import Mathlib

/-!
Verification development for the droid-acp bridge.

This file gives a shallow embedding of the bridge's core state machines:

* the subprocess protocol client (`src/droid-adapter.ts`): the per-line
  handler `handleLine` with its two-boolean streaming-state tracker that
  reorders the out-of-order idle notification;
* the agent facade / session state machine (`src/acp-agent.ts`):
  `handleNotification`, `handlePermission`, `prompt`, `cancel`, the prompt
  timeout callback and the MCP config cleanup.

I/O effects are made explicit: line handlers return the successor state
together with the list of emitted notifications; the agent handlers return
the successor session, the list of `sessionUpdate` payloads pushed to the
client, and (where relevant) the resolution of the pending prompt
continuation. Maps (`Map`/`Set`/JS objects in the source) are embedded as
association lists with JS `get`/`set`/`has`/`delete` semantics.
-/

/-- JS `Map.get`: first (unique) binding of the key, if any. -/
def mapGet {α : Type} : List (String × α) → String → Option α
  | [], _ => none
  | kv :: rest, k => if kv.1 == k then some kv.2 else mapGet rest k

/-- JS `Map.set`: replace the existing binding, or append a new one. -/
def mapSet {α : Type} : List (String × α) → String → α → List (String × α)
  | [], k, v => [(k, v)]
  | kv :: rest, k, v => if kv.1 == k then (k, v) :: rest else kv :: mapSet rest k v

/-- JS `Map.delete` (also object `delete`): drop the bindings of the key. -/
def mapRemove {α : Type} (m : List (String × α)) (k : String) : List (String × α) :=
  m.filter (fun kv => !(kv.1 == k))

/-- JS `Set.has`. -/
def setMem (s : List String) (x : String) : Bool :=
  s.any (fun y => y == x)

/-- JS `Set.add`. -/
def setAdd (s : List String) (x : String) : List String :=
  if setMem s x then s else s ++ [x]

/-- An inline tool-use payload (`{type: "tool_use", id, name, ...}`) carried
inside a `create_message` notification's content array. -/
structure ToolUseData where
  id : String
  name : String
  deriving DecidableEq, Repr

/-- One entry of a droid message's `content` array; the adapter only looks
for the first `text` and the first `tool_use` item, everything else is
passed over. -/
inductive MsgContent
  | text (t : String)
  | toolUse (tu : ToolUseData)
  | otherContent
  deriving DecidableEq, Repr

/-- The `message` object of a `create_message` session notification. -/
structure DroidMessage where
  role : String
  id : String
  content : List MsgContent
  deriving DecidableEq, Repr

/-- `msg.params.notification` of an inbound `droid.session_notification`
line (src/droid-adapter.ts, `handleLine` switch). -/
inductive SessNotice
  | workingStateChanged (newState : String)
  | createMessage (message : Option DroidMessage)
  | toolResultNotice (toolUseId : String) (content : String)
  | errorNotice (message : String)
  deriving DecidableEq, Repr

/-- A parsed inbound line from the droid subprocess. Response and request
lines, lines whose notification payload is missing, unknown notification
types and malformed lines neither touch the streaming-state tracker nor
emit internal notifications, so they are all collapsed into `otherLine`. -/
inductive InboundLine
  | notice (n : SessNotice)
  | otherLine
  deriving DecidableEq, Repr

/-- The adapter's internal notification vocabulary (`DroidNotification` in
src/droid-adapter.ts). -/
inductive DroidNotification
  | workingState (state : String)
  | message (role : String) (text : Option String) (id : String) (toolUse : Option ToolUseData)
  | toolResult (toolUseId : String) (content : String)
  | errored (message : String)
  | complete
  deriving DecidableEq, Repr

/-- The two-boolean streaming-state tracker of the adapter
(`isStreamingAssistant` / `pendingIdle`, src/droid-adapter.ts lines
253-255). -/
structure AdapterState where
  isStreamingAssistant : Bool
  pendingIdle : Bool
  deriving DecidableEq, Repr

/-- `content.find(c => c.type === "text")`, projected to the text. -/
def findText : List MsgContent → Option String
  | [] => none
  | .text t :: _ => some t
  | _ :: rest => findText rest

/-- `content.find(c => c.type === "tool_use")`. -/
def findToolUse : List MsgContent → Option ToolUseData
  | [] => none
  | .toolUse tu :: _ => some tu
  | _ :: rest => findToolUse rest

/-- The adapter's sequential per-line handler (`handleLine`,
src/droid-adapter.ts): returns the successor tracker state and the
internal notifications emitted for this line, in emission order. -/
def handleLine (st : AdapterState) (l : InboundLine) : AdapterState × List DroidNotification :=
  match l with
  | .otherLine => (st, [])
  | .notice n =>
    match n with
    | .workingStateChanged newState =>
      let outs := [DroidNotification.workingState newState]
      if newState == "streaming_assistant_message" then
        ({ isStreamingAssistant := true, pendingIdle := false }, outs)
      else if newState == "idle" then
        if st.isStreamingAssistant then
          ({ st with pendingIdle := true }, outs)
        else
          (st, outs ++ [DroidNotification.complete])
      else
        (st, outs)
    | .createMessage msg =>
      match msg with
      | none => (st, [])
      | some m =>
        let textContent := findText m.content
        let toolUseContent := findToolUse m.content
        if textContent.isSome || toolUseContent.isSome then
          let outs := [DroidNotification.message m.role textContent m.id toolUseContent]
          if m.role == "assistant" then
            if st.pendingIdle then
              ({ isStreamingAssistant := false, pendingIdle := false },
                outs ++ [DroidNotification.complete])
            else
              ({ st with isStreamingAssistant := false }, outs)
          else
            (st, outs)
        else
          (st, [])
    | .toolResultNotice tid c => (st, [DroidNotification.toolResult tid c])
    | .errorNotice m =>
      ({ isStreamingAssistant := false, pendingIdle := false },
        [DroidNotification.errored m])

/-- Strictly sequential processing of a whole inbound line sequence
(the promise-chain `queueLine` discipline): fold `handleLine` left to
right, concatenating the emitted notifications. -/
def processLines (st : AdapterState) : List InboundLine → AdapterState × List DroidNotification
  | [] => (st, [])
  | l :: rest =>
    let r1 := handleLine st l
    let r2 := processLines r1.1 rest
    (r2.1, r1.2 ++ r2.2)

theorem processLines_append (st : AdapterState) (p q : List InboundLine) :
    processLines st (p ++ q) =
      ((processLines (processLines st p).1 q).1,
        (processLines st p).2 ++ (processLines (processLines st p).1 q).2) := by
  induction p generalizing st with
  | nil => simp [processLines]
  | cons l rest ih =>
    simp only [List.cons_append, processLines]
    rw [show rest.append q = rest ++ q from rfl, ih]
    simp [List.append_assoc]

/-! ### Agent facade / session state machine (src/acp-agent.ts) -/

/-- Tool-call lifecycle status, the values of `session.toolCallStatus`. -/
inductive TCStatus
  | pending
  | inProgress
  | completed
  deriving DecidableEq, Repr

/-- Stop reason of a resolved prompt turn. -/
inductive StopReason
  | endTurn
  | cancelledTurn
  deriving DecidableEq, Repr

/-- Permission decision returned to the droid process as `selectedOption`. -/
inductive Decision
  | proceedOnce
  | proceedAlways
  | cancelDecision
  deriving DecidableEq, Repr

/-- An outbound `sessionUpdate` payload pushed to the ACP client, restricted
to the fields the bridge populates. -/
inductive Update
  | agentMessageChunk (text : String)
  | toolCall (toolCallId : String) (title : String) (status : TCStatus)
  | toolCallUpdateStatus (toolCallId : String) (status : TCStatus)
  | toolCallUpdateContent (toolCallId : String) (content : String) (toolName : String)
  deriving DecidableEq, Repr

/-- Per-session record (the `Session` interface of src/acp-agent.ts). The
JS `promptResolve` continuation slot is embedded as a boolean: `true` when
a resolver is registered, `false` when the slot is `null`; resolving it is
made observable through the `Option StopReason` component of the handlers
below. The `droid` subprocess handle is an external collaborator and is
not part of the reconciliation state. -/
structure Session where
  id : String
  droidSessionId : String
  model : String
  mode : String
  cancelled : Bool
  promptResolve : Bool
  activeToolCallIds : List String
  toolCallStatus : List (String × TCStatus)
  toolNames : List (String × String)
  mcpConfigPath : Option String
  mcpServerKeys : List String
  deriving DecidableEq, Repr

/-- The agent's global state: the session map. -/
structure AgentState where
  sessions : List (String × Session)
  deriving DecidableEq, Repr

/-- `session.toolNames.get(id) || "unknown"` (truthiness: an empty-string
name is also replaced by "unknown", matching JS `||`). -/
def toolNameOrUnknown (s : Session) (tid : String) : String :=
  match mapGet s.toolNames tid with
  | none => "unknown"
  | some nm => if nm == "" then "unknown" else nm

/-- `handleNotification` (src/acp-agent.ts lines 571-688): consumes one
internal adapter notification and returns the successor session, the
`sessionUpdate` payloads sent to the client in order, and the stop reason
the pending prompt continuation is resolved with on this step (if any).
`working_state` notifications have no case in the source switch and fall
through untouched. -/
def handleNotification (s : Session) (n : DroidNotification) :
    Session × List Update × Option StopReason :=
  match n with
  | .workingState _ => (s, [], none)
  | .message role text _ toolUse =>
    if role == "assistant" then
      let r1 : Session × List Update :=
        match toolUse with
        | none => (s, [])
        | some tu =>
          if setMem s.activeToolCallIds tu.id then
            -- update status to in_progress unless it was completed
            match mapGet s.toolCallStatus tu.id with
            | some .completed => (s, [])
            | _ =>
              ({ s with toolCallStatus := mapSet s.toolCallStatus tu.id .inProgress },
                [Update.toolCallUpdateStatus tu.id .inProgress])
          else
            -- first sighting: assume started if seen without a permission request
            ({ s with
                activeToolCallIds := setAdd s.activeToolCallIds tu.id,
                toolNames := mapSet s.toolNames tu.id tu.name,
                toolCallStatus := mapSet s.toolCallStatus tu.id .inProgress },
              [Update.toolCall tu.id ("Running " ++ tu.name) .inProgress])
      let chunk : List Update :=
        match text with
        | none => []
        | some t => if t == "" then [] else [Update.agentMessageChunk t]
      (r1.1, r1.2 ++ chunk, none)
    else
      (s, [], none)
  | .toolResult tid c =>
    ({ s with toolCallStatus := mapSet s.toolCallStatus tid .completed },
      [Update.toolCallUpdateContent tid c (toolNameOrUnknown s tid),
        Update.toolCallUpdateStatus tid .completed],
      none)
  | .errored m =>
    (s, [Update.agentMessageChunk ("Error: " ++ m)], none)
  | .complete =>
    if s.promptResolve then
      ({ s with promptResolve := false }, [], some StopReason.endTurn)
    else
      (s, [], none)

/-- Sequential processing of a list of internal notifications by the
session state machine, accumulating the client updates. -/
def processNotifications (s : Session) : List DroidNotification → Session × List Update
  | [] => (s, [])
  | n :: rest =>
    let r1 := handleNotification s n
    let r2 := processNotifications r1.1 rest
    (r2.1, r1.2.1 ++ r2.2)

/-- An element of `params.toolUses` of a `droid.request_permission`
request; `toolUse` may be absent. The `command` field stands for the
already-evaluated presentation string
`toolUse.input?.command || JSON.stringify(toolUse.input)`. -/
structure ToolUseInfo where
  id : String
  name : String
  command : String
  riskLevel : Option String
  deriving DecidableEq, Repr

structure PermToolUseEntry where
  toolUse : Option ToolUseInfo
  deriving DecidableEq, Repr

/-- `params` of an inbound permission request. -/
structure PermParams where
  toolUses : List PermToolUseEntry
  deriving DecidableEq, Repr

/-- `params.toolUses?.[0]?.toolUse`. -/
def firstToolUse (p : PermParams) : Option ToolUseInfo :=
  match p.toolUses with
  | [] => none
  | e :: _ => e.toolUse

/-- `handlePermission` (src/acp-agent.ts lines 511-568): returns the
successor session, the `sessionUpdate` payloads pushed to the client, and
the `selectedOption` answered to the droid process. -/
def handlePermission (s : Session) (params : PermParams) :
    Session × List Update × Decision :=
  match firstToolUse params with
  | none => (s, [], Decision.proceedOnce)
  | some tu =>
    -- `toolUse.input?.riskLevel || "medium"` (JS truthiness: an empty
    -- string also falls back to "medium")
    let riskLevel : String :=
      match tu.riskLevel with
      | none => "medium"
      | some r => if r == "" then "medium" else r
    let s1 : Session :=
      { s with
          activeToolCallIds := setAdd s.activeToolCallIds tu.id,
          toolNames := mapSet s.toolNames tu.id tu.name,
          toolCallStatus := mapSet s.toolCallStatus tu.id .pending }
    let pendingUpdate : Update :=
      Update.toolCall tu.id ("Running " ++ tu.name ++ ": " ++ tu.command) .pending
    let decision : Decision :=
      if s.mode == "high" then
        Decision.proceedAlways
      else if s.mode == "medium" then
        if riskLevel == "low" || riskLevel == "medium" then
          Decision.proceedOnce
        else
          Decision.cancelDecision
      else
        Decision.cancelDecision
    let s2 : Session :=
      { s1 with
          toolCallStatus :=
            mapSet s1.toolCallStatus tu.id
              (match decision with
                | Decision.cancelDecision => TCStatus.completed
                | _ => TCStatus.inProgress) }
    (s2, [pendingUpdate], decision)

/-- An ACP prompt content block; only `text` blocks are honored. -/
inductive ContentBlock
  | text (t : String)
  | otherBlock
  deriving DecidableEq, Repr

/-- `request.prompt.filter(b => b.type === "text").map(b => b.text).join("\n")`. -/
def joinTextBlocks (blocks : List ContentBlock) : String :=
  String.intercalate "\n"
    (blocks.filterMap (fun b => match b with | .text t => some t | .otherBlock => none))

inductive PromptErr
  | sessionNotFound (sid : String)
  | sessionCancelled
  deriving DecidableEq, Repr

/-- `prompt` (src/acp-agent.ts lines 448-474): on an unknown or cancelled
session it throws before any effect (embedded as `Except.error`, which
carries no successor state and no sent message); otherwise it registers
the continuation and sends the joined text to the subprocess (returned as
the second component of the `ok` payload). -/
def agentPrompt (ag : AgentState) (sid : String) (blocks : List ContentBlock) :
    Except PromptErr (AgentState × String) :=
  match mapGet ag.sessions sid with
  | none => Except.error (PromptErr.sessionNotFound sid)
  | some s =>
    if s.cancelled then
      Except.error PromptErr.sessionCancelled
    else
      let text := joinTextBlocks blocks
      Except.ok ({ sessions := mapSet ag.sessions sid { s with promptResolve := true } }, text)

/-- The 5-minute prompt-completion timeout (src/acp-agent.ts line 472). -/
def promptTimeoutMs : Nat := 5 * 60 * 1000

/-- The prompt timeout callback (src/acp-agent.ts lines 467-472): resolve
the pending prompt with "end_turn" if the slot is still occupied. -/
def promptTimeoutFire (s : Session) : Session × Option StopReason :=
  if s.promptResolve then
    ({ s with promptResolve := false }, some StopReason.endTurn)
  else
    (s, none)

/-- `cancel` (src/acp-agent.ts lines 476-489): when the session exists, it
is marked cancelled, any pending prompt is resolved with "cancelled"
(returned in the second component), the droid client is stopped, the MCP
config cleaned up, and the session removed from the map; when the session
is unknown the call is a no-op. The call never throws. -/
def agentCancel (ag : AgentState) (sid : String) : AgentState × Option StopReason :=
  match mapGet ag.sessions sid with
  | none => (ag, none)
  | some s =>
    let resolution := if s.promptResolve then some StopReason.cancelledTurn else none
    ({ sessions := mapRemove ag.sessions sid }, resolution)

/-- `delete config.mcpServers[key]` for each of the session's keys. -/
def mcpRemoveKeys (keys : List String) (m : List (String × String)) :
    List (String × String) :=
  m.filter (fun kv => !(setMem keys kv.1))

/-- `cleanupSessionMcpConfig` (src/acp-agent.ts lines 703-738), as a pure
function of the on-disk `mcpServers` map: `none` models an absent config
file (a read that throws is ignored), `some m` a file whose parsed
`mcpServers` object is `m`. The result is the file state afterwards:
deleted (`none`) when removing the session's keys empties the map,
written back otherwise; untouched when the session recorded no config
path or no server keys. -/
def cleanupSessionMcpConfig (mcpConfigPath : Option String) (mcpServerKeys : List String)
    (file : Option (List (String × String))) : Option (List (String × String)) :=
  match mcpConfigPath with
  | none => file
  | some _ =>
    if mcpServerKeys.isEmpty then file
    else
      match file with
      | none => none
      | some m =>
        let remaining := mcpRemoveKeys mcpServerKeys m
        if remaining.isEmpty then none else some remaining

/-! ### Claim theorems -/

/-- Helper: processing the `streaming_assistant_message` → `idle` →
`create_message(assistant)` triple from any tracker state emits exactly
the two working-state notifications, then the assistant message, then
`complete`. -/
theorem processLines_deferred_triple (st : AdapterState) (m : DroidMessage)
    (hrole : m.role = "assistant")
    (hcontent : ((findText m.content).isSome || (findToolUse m.content).isSome) = true) :
    processLines st
        [InboundLine.notice (SessNotice.workingStateChanged "streaming_assistant_message"),
          InboundLine.notice (SessNotice.workingStateChanged "idle"),
          InboundLine.notice (SessNotice.createMessage (some m))]
      = ({ isStreamingAssistant := false, pendingIdle := false },
          [DroidNotification.workingState "streaming_assistant_message",
            DroidNotification.workingState "idle",
            DroidNotification.message "assistant" (findText m.content) m.id (findToolUse m.content),
            DroidNotification.complete]) := by
  simp [processLines, handleLine, hrole, hcontent]

/-- C1: in every inbound line sequence in which the child emits the
`streaming_assistant_message` working-state change, then `idle`, then an
assistant `create_message` (with some text or tool-use content), the
adapter's cumulative output extends the prefix's output with the two
working-state notifications, the assistant message, and then `complete` —
so `complete` is emitted strictly after the assistant message, never
before it (the idle is deferred via `pendingIdle` and flushed only after
the message). -/
theorem complete_emitted_after_assistant_message (st : AdapterState)
    (p : List InboundLine) (m : DroidMessage)
    (hrole : m.role = "assistant")
    (hcontent : ((findText m.content).isSome || (findToolUse m.content).isSome) = true) :
    (processLines st
        (p ++ [InboundLine.notice (SessNotice.workingStateChanged "streaming_assistant_message"),
                InboundLine.notice (SessNotice.workingStateChanged "idle"),
                InboundLine.notice (SessNotice.createMessage (some m))])).2
      = (processLines st p).2 ++
          [DroidNotification.workingState "streaming_assistant_message",
            DroidNotification.workingState "idle",
            DroidNotification.message "assistant" (findText m.content) m.id (findToolUse m.content),
            DroidNotification.complete] := by
  rw [processLines_append, processLines_deferred_triple _ m hrole hcontent]

/-- C1 witness: a concrete run — empty prefix, fresh tracker, a one-text
assistant message. -/
theorem complete_emitted_after_assistant_message_witness :
    (DroidMessage.mk "assistant" "m1" [MsgContent.text "hello"]).role = "assistant" ∧
    ((findText (DroidMessage.mk "assistant" "m1" [MsgContent.text "hello"]).content).isSome ||
      (findToolUse (DroidMessage.mk "assistant" "m1" [MsgContent.text "hello"]).content).isSome) = true ∧
    (processLines { isStreamingAssistant := false, pendingIdle := false }
        ([] ++ [InboundLine.notice (SessNotice.workingStateChanged "streaming_assistant_message"),
                InboundLine.notice (SessNotice.workingStateChanged "idle"),
                InboundLine.notice (SessNotice.createMessage
                  (some (DroidMessage.mk "assistant" "m1" [MsgContent.text "hello"])))])).2
      = (processLines { isStreamingAssistant := false, pendingIdle := false } []).2 ++
          [DroidNotification.workingState "streaming_assistant_message",
            DroidNotification.workingState "idle",
            DroidNotification.message "assistant"
              (findText (DroidMessage.mk "assistant" "m1" [MsgContent.text "hello"]).content)
              (DroidMessage.mk "assistant" "m1" [MsgContent.text "hello"]).id
              (findToolUse (DroidMessage.mk "assistant" "m1" [MsgContent.text "hello"]).content),
            DroidNotification.complete] :=
  ⟨rfl, by decide,
    complete_emitted_after_assistant_message
      { isStreamingAssistant := false, pendingIdle := false } []
      (DroidMessage.mk "assistant" "m1" [MsgContent.text "hello"]) rfl (by decide)⟩

/-- C2: an `idle` working-state notification arriving while the streaming
flag is false makes the adapter emit `complete` immediately on that line,
right after the forwarded working-state notification, leaving the tracker
untouched. -/
theorem idle_without_streaming_completes_immediately (st : AdapterState)
    (h : st.isStreamingAssistant = false) :
    handleLine st (InboundLine.notice (SessNotice.workingStateChanged "idle"))
      = (st, [DroidNotification.workingState "idle", DroidNotification.complete]) := by
  simp [handleLine, h]

/-- C2 witness: concrete idle line on a fresh tracker. -/
theorem idle_without_streaming_completes_immediately_witness :
    ({ isStreamingAssistant := false, pendingIdle := false } : AdapterState).isStreamingAssistant
        = false ∧
    handleLine { isStreamingAssistant := false, pendingIdle := false }
        (InboundLine.notice (SessNotice.workingStateChanged "idle"))
      = ({ isStreamingAssistant := false, pendingIdle := false },
          [DroidNotification.workingState "idle", DroidNotification.complete]) :=
  ⟨rfl, idle_without_streaming_completes_immediately
    { isStreamingAssistant := false, pendingIdle := false } rfl⟩

/-- C9: an inbound `error` notification clears both the streaming flag and
the deferred-idle flag and emits only the `error` notification (never
`complete`); at the session layer the error is surfaced as a visible
error message chunk and the pending prompt continuation is not resolved
and the session is unchanged. -/
theorem error_clears_flags_and_abandons_completion (st : AdapterState) (emsg : String)
    (s : Session) :
    handleLine st (InboundLine.notice (SessNotice.errorNotice emsg))
      = ({ isStreamingAssistant := false, pendingIdle := false },
          [DroidNotification.errored emsg]) ∧
    DroidNotification.complete ∉
      (handleLine st (InboundLine.notice (SessNotice.errorNotice emsg))).2 ∧
    handleNotification s (DroidNotification.errored emsg)
      = (s, [Update.agentMessageChunk ("Error: " ++ emsg)], none) :=
  ⟨rfl, by simp [handleLine], rfl⟩

/-- The permission decision table as written in the specification (§4.4),
including the default risk level; comparison point for the decision logic
embedded in `handlePermission`. -/
def permissionPolicySpec (mode risk : String) : Decision :=
  if mode == "high" then
    Decision.proceedAlways
  else if mode == "medium" then
    if risk == "high" then Decision.cancelDecision else Decision.proceedOnce
  else
    Decision.cancelDecision

/-- C3: the `selectedOption` computed by `handlePermission` is a pure total
function of (session mode, declared risk level) agreeing with the table:
high mode always proceeds_always, medium mode proceeds_once on low/medium
risk and cancels on high risk, low mode always cancels, and a request
without a risk level is decided as if the risk were medium. -/
theorem permission_decision_matches_table (s : Session) (tu : ToolUseInfo)
    (rest : List PermToolUseEntry)
    (hmode : s.mode = "low" ∨ s.mode = "medium" ∨ s.mode = "high")
    (hrisk : tu.riskLevel = none ∨ tu.riskLevel = some "low" ∨
      tu.riskLevel = some "medium" ∨ tu.riskLevel = some "high") :
    (handlePermission s { toolUses := { toolUse := some tu } :: rest }).2.2
      = permissionPolicySpec s.mode (tu.riskLevel.getD "medium") := by
  rcases hmode with h | h | h <;>
    rcases hrisk with hr | hr | hr | hr <;>
      simp [handlePermission, firstToolUse, permissionPolicySpec, h, hr]

/-- A concrete session record used by the witnesses. -/
def exSession (mode : String) : Session :=
  { id := "s1", droidSessionId := "d1", model := "mod", mode := mode,
    cancelled := false, promptResolve := false, activeToolCallIds := [],
    toolCallStatus := [], toolNames := [], mcpConfigPath := none, mcpServerKeys := [] }

/-- A concrete permission-request tool use used by the witnesses. -/
def exToolUse (risk : Option String) : ToolUseInfo :=
  { id := "t1", name := "bash", command := "echo 1", riskLevel := risk }

/-- C3 witness: medium mode with high risk is decided per the table. -/
theorem permission_decision_matches_table_witness :
    ((exSession "medium").mode = "low" ∨ (exSession "medium").mode = "medium" ∨
      (exSession "medium").mode = "high") ∧
    ((exToolUse (some "high")).riskLevel = none ∨
      (exToolUse (some "high")).riskLevel = some "low" ∨
      (exToolUse (some "high")).riskLevel = some "medium" ∨
      (exToolUse (some "high")).riskLevel = some "high") ∧
    (handlePermission (exSession "medium")
        { toolUses := [{ toolUse := some (exToolUse (some "high")) }] }).2.2
      = permissionPolicySpec (exSession "medium").mode
          ((exToolUse (some "high")).riskLevel.getD "medium") :=
  ⟨Or.inr (Or.inl rfl), Or.inr (Or.inr (Or.inr rfl)),
    permission_decision_matches_table (exSession "medium") (exToolUse (some "high")) []
      (Or.inr (Or.inl rfl)) (Or.inr (Or.inr (Or.inr rfl)))⟩

/-- C10: a permission request whose params carry no tool-use entry is
answered with proceed_once for every session (any mode, low included),
with no client update emitted and the session — tool-call tracking maps
included — left unchanged. -/
theorem permission_without_tooluse_defaults (s : Session) (params : PermParams)
    (h : firstToolUse params = none) :
    handlePermission s params = (s, [], Decision.proceedOnce) := by
  simp [handlePermission, h]

/-- C10 witness: a low-mode session and an empty `toolUses` array. -/
theorem permission_without_tooluse_defaults_witness :
    firstToolUse { toolUses := [] } = none ∧
    handlePermission (exSession "low") { toolUses := [] }
      = (exSession "low", [], Decision.proceedOnce) :=
  ⟨rfl, permission_without_tooluse_defaults (exSession "low") { toolUses := [] } rfl⟩

theorem mapGet_mapRemove_self {α : Type} (m : List (String × α)) (k : String) :
    mapGet (mapRemove m k) k = none := by
  induction m with
  | nil => rfl
  | cons kv rest ih =>
    cases hkv : (kv.1 == k) <;>
      simp [mapRemove, List.filter_cons, hkv, mapGet] <;>
        simpa [mapRemove] using ih

/-- C5: the pending prompt continuation is resolved exactly once. When the
slot is occupied, a `complete` notification resolves it with "end_turn",
`cancel` resolves it with "cancelled" (and removes the session), and the
timeout callback (armed at a fixed 5 minutes) resolves it with
"end_turn"; each path clears the slot, and after any of them a further
`complete`, timeout firing, or `cancel` resolves nothing. -/
theorem prompt_resolved_exactly_once (ag : AgentState) (sid : String) (s : Session)
    (hs : mapGet ag.sessions sid = some s) (h : s.promptResolve = true) :
    handleNotification s DroidNotification.complete
        = ({ s with promptResolve := false }, [], some StopReason.endTurn) ∧
    promptTimeoutFire s = ({ s with promptResolve := false }, some StopReason.endTurn) ∧
    agentCancel ag sid
        = ({ sessions := mapRemove ag.sessions sid }, some StopReason.cancelledTurn) ∧
    (handleNotification { s with promptResolve := false } DroidNotification.complete).2.2
        = none ∧
    (promptTimeoutFire { s with promptResolve := false }).2 = none ∧
    (agentCancel { sessions := mapRemove ag.sessions sid } sid).2 = none ∧
    promptTimeoutMs = 300000 := by
  refine ⟨?_, ?_, ?_, ?_, ?_, ?_, rfl⟩
  · simp [handleNotification, h]
  · simp [promptTimeoutFire, h]
  · simp [agentCancel, hs, h]
  · simp [handleNotification]
  · simp [promptTimeoutFire]
  · simp [agentCancel, mapGet_mapRemove_self]

/-- C5 witness: a single-session agent with an occupied continuation slot. -/
theorem prompt_resolved_exactly_once_witness :
    mapGet (AgentState.mk [("s1", { exSession "medium" with promptResolve := true })]).sessions "s1"
        = some { exSession "medium" with promptResolve := true } ∧
    ({ exSession "medium" with promptResolve := true } : Session).promptResolve = true ∧
    (handleNotification { exSession "medium" with promptResolve := true }
          DroidNotification.complete
        = ({ { exSession "medium" with promptResolve := true } with promptResolve := false },
            [], some StopReason.endTurn) ∧
      promptTimeoutFire { exSession "medium" with promptResolve := true }
        = ({ { exSession "medium" with promptResolve := true } with promptResolve := false },
            some StopReason.endTurn) ∧
      agentCancel (AgentState.mk [("s1", { exSession "medium" with promptResolve := true })]) "s1"
        = ({ sessions :=
              mapRemove
                (AgentState.mk
                  [("s1", { exSession "medium" with promptResolve := true })]).sessions "s1" },
            some StopReason.cancelledTurn) ∧
      (handleNotification
          { { exSession "medium" with promptResolve := true } with promptResolve := false }
          DroidNotification.complete).2.2 = none ∧
      (promptTimeoutFire
          { { exSession "medium" with promptResolve := true } with promptResolve := false }).2
        = none ∧
      (agentCancel
          { sessions :=
              mapRemove
                (AgentState.mk
                  [("s1", { exSession "medium" with promptResolve := true })]).sessions "s1" }
          "s1").2 = none ∧
      promptTimeoutMs = 300000) :=
  ⟨by decide, rfl,
    prompt_resolved_exactly_once
      (AgentState.mk [("s1", { exSession "medium" with promptResolve := true })]) "s1"
      { exSession "medium" with promptResolve := true } (by decide) rfl⟩

/-- C6: `prompt` on a session id absent from the session map fails with the
not-found error, and on a cancelled session fails with the cancelled
error; an `Except.error` result carries no successor state and no sent
message (the source throws before any effect). -/
theorem prompt_unknown_or_cancelled_fails (ag : AgentState) (sid : String)
    (blocks : List ContentBlock) (s : Session) :
    (mapGet ag.sessions sid = none →
      agentPrompt ag sid blocks = Except.error (PromptErr.sessionNotFound sid)) ∧
    (mapGet ag.sessions sid = some s → s.cancelled = true →
      agentPrompt ag sid blocks = Except.error PromptErr.sessionCancelled) := by
  constructor
  · intro h
    simp [agentPrompt, h]
  · intro hs hc
    simp [agentPrompt, hs, hc]

/-- C6 witness: an empty session map, and a map holding one cancelled
session. -/
theorem prompt_unknown_or_cancelled_fails_witness :
    (mapGet (AgentState.mk []).sessions "ghost" = none →
      agentPrompt (AgentState.mk []) "ghost" []
        = Except.error (PromptErr.sessionNotFound "ghost")) ∧
    mapGet (AgentState.mk []).sessions "ghost" = none ∧
    (mapGet (AgentState.mk [("s1", { exSession "medium" with cancelled := true })]).sessions "s1"
        = some { exSession "medium" with cancelled := true } →
      ({ exSession "medium" with cancelled := true } : Session).cancelled = true →
      agentPrompt (AgentState.mk [("s1", { exSession "medium" with cancelled := true })]) "s1" []
        = Except.error PromptErr.sessionCancelled) ∧
    agentPrompt (AgentState.mk [("s1", { exSession "medium" with cancelled := true })]) "s1" []
      = Except.error PromptErr.sessionCancelled :=
  ⟨(prompt_unknown_or_cancelled_fails (AgentState.mk []) "ghost" [] (exSession "medium")).1,
    rfl,
    (prompt_unknown_or_cancelled_fails
        (AgentState.mk [("s1", { exSession "medium" with cancelled := true })]) "s1" []
        { exSession "medium" with cancelled := true }).2,
    (prompt_unknown_or_cancelled_fails
        (AgentState.mk [("s1", { exSession "medium" with cancelled := true })]) "s1" []
        { exSession "medium" with cancelled := true }).2 (by decide) rfl⟩

/-- C7: `cancel` is idempotent. The first call removes the session (after
marking it cancelled, resolving any pending prompt with "cancelled" and
stopping the subprocess client); calling `cancel` again on the resulting
state is error-free by construction, changes nothing, and resolves no
prompt continuation a second time. -/
theorem cancel_idempotent (ag : AgentState) (sid : String) :
    agentCancel (agentCancel ag sid).1 sid = ((agentCancel ag sid).1, none) := by
  cases h : mapGet ag.sessions sid with
  | none => simp [agentCancel, h]
  | some s => simp [agentCancel, h, mapGet_mapRemove_self]

theorem mapGet_mcpRemoveKeys (keys : List String) (m : List (String × String)) (k : String) :
    mapGet (mcpRemoveKeys keys m) k
      = if setMem keys k = true then none else mapGet m k := by
  induction m with
  | nil =>
    simp [mcpRemoveKeys, mapGet]
  | cons kv rest ih =>
    by_cases hkv : kv.1 = k
    · subst hkv
      by_cases hmem : setMem keys kv.1 = true
      · simp [mcpRemoveKeys, List.filter_cons, hmem, mapGet] at ih ⊢
        simpa [hmem] using ih
      · simp [mcpRemoveKeys, List.filter_cons, hmem, mapGet]
    · have hkvb : (kv.1 == k) = false := by simpa using hkv
      by_cases hmem : setMem keys kv.1 = true
      · simp only [mcpRemoveKeys, List.filter_cons, hmem, Bool.not_true, if_false,
          mapGet, hkvb]
        simpa [mcpRemoveKeys] using ih
      · simp only [mcpRemoveKeys, List.filter_cons, Bool.not_eq_true] at hmem ⊢
        simp only [hmem, Bool.not_false, if_true, mapGet, hkvb, if_false]
        simpa [mcpRemoveKeys] using ih

/-- C8: MCP config cleanup for a session removes exactly that session's
server keys from the `mcpServers` map and leaves every other key bound as
before; the file is deleted exactly when the removal empties the map, and
otherwise the remaining map is written back. -/
theorem mcp_cleanup_removes_only_session_keys (p : String) (keys : List String)
    (m : List (String × String)) (k : String) (hk : keys ≠ []) :
    (cleanupSessionMcpConfig (some p) keys (some m) = none ↔ mcpRemoveKeys keys m = []) ∧
    (mcpRemoveKeys keys m = [] ∨
      cleanupSessionMcpConfig (some p) keys (some m) = some (mcpRemoveKeys keys m)) ∧
    mapGet (mcpRemoveKeys keys m) k = (if setMem keys k = true then none else mapGet m k) := by
  have hne : keys.isEmpty = false := by
    cases keys with
    | nil => cases hk rfl
    | cons a l => rfl
  refine ⟨?_, ?_, mapGet_mcpRemoveKeys keys m k⟩
  · simp only [cleanupSessionMcpConfig, hne, if_false, Bool.false_eq_true]
    by_cases h : (mcpRemoveKeys keys m).isEmpty = true
    · simp [h, List.isEmpty_iff.mp h]
    · have : mcpRemoveKeys keys m ≠ [] := by
        simpa [List.isEmpty_iff] using h
      simp [h, this]
  · by_cases h : (mcpRemoveKeys keys m).isEmpty = true
    · exact Or.inl (List.isEmpty_iff.mp h)
    · exact Or.inr (by simp [cleanupSessionMcpConfig, hne, h])

/-- C8 witness: the spec's example — keys `a-s1`, `b-s1`, `c-s2`; cleaning
up session `s1` leaves exactly `c-s2`. -/
theorem mcp_cleanup_removes_only_session_keys_witness :
    (["a-s1", "b-s1"] : List String) ≠ [] ∧
    ((cleanupSessionMcpConfig (some "mcp.json") ["a-s1", "b-s1"]
          (some [("a-s1", "A"), ("b-s1", "B"), ("c-s2", "C")]) = none ↔
        mcpRemoveKeys ["a-s1", "b-s1"] [("a-s1", "A"), ("b-s1", "B"), ("c-s2", "C")] = []) ∧
      (mcpRemoveKeys ["a-s1", "b-s1"] [("a-s1", "A"), ("b-s1", "B"), ("c-s2", "C")] = [] ∨
        cleanupSessionMcpConfig (some "mcp.json") ["a-s1", "b-s1"]
            (some [("a-s1", "A"), ("b-s1", "B"), ("c-s2", "C")])
          = some (mcpRemoveKeys ["a-s1", "b-s1"]
              [("a-s1", "A"), ("b-s1", "B"), ("c-s2", "C")])) ∧
      mapGet (mcpRemoveKeys ["a-s1", "b-s1"] [("a-s1", "A"), ("b-s1", "B"), ("c-s2", "C")])
          "c-s2"
        = (if setMem ["a-s1", "b-s1"] "c-s2" = true then none
            else mapGet [("a-s1", "A"), ("b-s1", "B"), ("c-s2", "C")] "c-s2")) :=
  ⟨by decide,
    mcp_cleanup_removes_only_session_keys "mcp.json" ["a-s1", "b-s1"]
      [("a-s1", "A"), ("b-s1", "B"), ("c-s2", "C")] "c-s2" (by decide)⟩

theorem mapGet_mapSet_self {α : Type} (m : List (String × α)) (k : String) (v : α) :
    mapGet (mapSet m k v) k = some v := by
  induction m with
  | nil => simp [mapSet, mapGet]
  | cons kv rest ih =>
    by_cases h : (kv.1 == k) = true
    · simp [mapSet, h, mapGet]
    · simp [mapSet, h, mapGet, ih]

theorem mapGet_mapSet_ne {α : Type} (m : List (String × α)) (k k' : String) (v : α)
    (h : k' ≠ k) : mapGet (mapSet m k v) k' = mapGet m k' := by
  induction m with
  | nil =>
    simp [mapSet, mapGet, beq_iff_eq, Ne.symm h]
  | cons kv rest ih =>
    by_cases hk : (kv.1 == k) = true
    · have hkv : kv.1 = k := by simpa using hk
      simp [mapSet, hk, mapGet, beq_iff_eq, Ne.symm h, hkv]
    · by_cases hk' : (kv.1 == k') = true
      · simp [mapSet, hk, mapGet, hk']
      · simp [mapSet, hk, mapGet, hk', ih]

theorem setMem_setAdd {s : List String} {x y : String} (h : setMem s x = true) :
    setMem (setAdd s y) x = true := by
  unfold setAdd
  by_cases hm : setMem s y = true
  · simp [hm, h]
  · simp only [hm, if_false, Bool.false_eq_true]
    simp only [setMem, List.any_append] at h ⊢
    simp [h]

/-- An update that would move the given tool call back to pending or
in_progress: a fresh `tool_call` or a `tool_call_update` for that id with
a non-completed status. -/
def regressUpdateFor (tid : String) (u : Update) : Bool :=
  match u with
  | .toolCall i _ TCStatus.pending => i == tid
  | .toolCall i _ TCStatus.inProgress => i == tid
  | .toolCallUpdateStatus i TCStatus.pending => i == tid
  | .toolCallUpdateStatus i TCStatus.inProgress => i == tid
  | _ => false

theorem handleNotification_no_regress (s : Session) (tid : String) (n : DroidNotification)
    (hact : setMem s.activeToolCallIds tid = true)
    (hst : mapGet s.toolCallStatus tid = some TCStatus.completed) :
    setMem (handleNotification s n).1.activeToolCallIds tid = true ∧
    mapGet (handleNotification s n).1.toolCallStatus tid = some TCStatus.completed ∧
    ((handleNotification s n).2.1.all (fun u => !(regressUpdateFor tid u))) = true := by
  cases n with
  | workingState st' => exact ⟨hact, hst, rfl⟩
  | errored m => exact ⟨hact, hst, rfl⟩
  | complete =>
    by_cases hp : s.promptResolve = true <;>
      simp [handleNotification, hp, hact, hst]
  | toolResult tid' c =>
    by_cases hid : tid' = tid
    · subst hid
      simp [handleNotification, hact, mapGet_mapSet_self, regressUpdateFor]
    · simp [handleNotification, hact, mapGet_mapSet_ne _ _ _ _ (Ne.symm hid), hst,
        regressUpdateFor, beq_iff_eq, hid]
  | message role text mid tu =>
    by_cases hrole : (role == "assistant") = true
    · cases tu with
      | none =>
        cases text with
        | none => simp [handleNotification, hrole, hact, hst]
        | some t =>
          by_cases ht : (t == "") = true <;>
            simp [handleNotification, hrole, hact, hst, ht, regressUpdateFor]
      | some tu =>
        by_cases hid : tu.id = tid
        · subst hid
          -- the id is active, so the in-branch runs, and its completed
          -- status short-circuits any update
          have hmem : setMem s.activeToolCallIds tu.id = true := hact
          cases text with
          | none => simp [handleNotification, hrole, hmem, hst, hact]
          | some t =>
            by_cases ht : (t == "") = true <;>
              simp [handleNotification, hrole, hmem, hst, hact, ht, regressUpdateFor]
        · by_cases hmem : setMem s.activeToolCallIds tu.id = true
          · cases hcur : mapGet s.toolCallStatus tu.id with
            | none =>
              cases text with
              | none =>
                simp [handleNotification, hrole, hmem, hcur, hst, regressUpdateFor,
                  setMem_setAdd hact, mapGet_mapSet_ne _ _ _ _ (Ne.symm hid), hact,
                  beq_iff_eq, hid]
              | some t =>
                by_cases ht : (t == "") = true <;>
                  simp [handleNotification, hrole, hmem, hcur, hst, regressUpdateFor,
                    setMem_setAdd hact, mapGet_mapSet_ne _ _ _ _ (Ne.symm hid), hact,
                    beq_iff_eq, hid, ht]
            | some cur =>
              cases cur with
              | completed =>
                cases text with
                | none => simp [handleNotification, hrole, hmem, hcur, hst, hact]
                | some t =>
                  by_cases ht : (t == "") = true <;>
                    simp [handleNotification, hrole, hmem, hcur, hst, hact, ht,
                      regressUpdateFor]
              | pending =>
                cases text with
                | none =>
                  simp [handleNotification, hrole, hmem, hcur, hst, regressUpdateFor,
                    mapGet_mapSet_ne _ _ _ _ (Ne.symm hid), hact, beq_iff_eq, hid]
                | some t =>
                  by_cases ht : (t == "") = true <;>
                    simp [handleNotification, hrole, hmem, hcur, hst, regressUpdateFor,
                      mapGet_mapSet_ne _ _ _ _ (Ne.symm hid), hact, beq_iff_eq, hid, ht]
              | inProgress =>
                cases text with
                | none =>
                  simp [handleNotification, hrole, hmem, hcur, hst, regressUpdateFor,
                    mapGet_mapSet_ne _ _ _ _ (Ne.symm hid), hact, beq_iff_eq, hid]
                | some t =>
                  by_cases ht : (t == "") = true <;>
                    simp [handleNotification, hrole, hmem, hcur, hst, regressUpdateFor,
                      mapGet_mapSet_ne _ _ _ _ (Ne.symm hid), hact, beq_iff_eq, hid, ht]
          · cases text with
            | none =>
              simp [handleNotification, hrole, hmem, hst, regressUpdateFor,
                setMem_setAdd hact, mapGet_mapSet_ne _ _ _ _ (Ne.symm hid), hact,
                beq_iff_eq, hid]
            | some t =>
              by_cases ht : (t == "") = true <;>
                simp [handleNotification, hrole, hmem, hst, regressUpdateFor,
                  setMem_setAdd hact, mapGet_mapSet_ne _ _ _ _ (Ne.symm hid), hact,
                  beq_iff_eq, hid, ht]
    · simp [handleNotification, hrole, hact, hst]

/-- C4 (amended): once a tool-call id is registered in
`activeToolCallIds` (observed via a permission request or an inline
tool-use mention) and its status is `completed`, no sequence of
subsequently processed notifications sets the status back to pending or
in_progress, the registration persists, and no pending/in_progress
`tool_call` or `tool_call_update` is sent to the client for that id. -/
theorem toolcall_completed_never_regresses_when_active (s : Session) (tid : String)
    (ns : List DroidNotification)
    (hact : setMem s.activeToolCallIds tid = true)
    (hst : mapGet s.toolCallStatus tid = some TCStatus.completed) :
    setMem (processNotifications s ns).1.activeToolCallIds tid = true ∧
    mapGet (processNotifications s ns).1.toolCallStatus tid = some TCStatus.completed ∧
    ((processNotifications s ns).2.all (fun u => !(regressUpdateFor tid u))) = true := by
  induction ns generalizing s with
  | nil => exact ⟨hact, hst, rfl⟩
  | cons n rest ih =>
    obtain ⟨h1, h2, h3⟩ := handleNotification_no_regress s tid n hact hst
    obtain ⟨g1, g2, g3⟩ := ih _ h1 h2
    refine ⟨g1, g2, ?_⟩
    simp only [processNotifications, List.all_append]
    simp [h3, g3]

/-- C4 counterexample: the claim as stated fails. A `tool_result` for a
tool-call id never seen before records it as completed without
registering it in `activeToolCallIds`; a subsequent assistant message
carrying that inline tool-use then resets the status to in_progress and
sends an in_progress `tool_call` update to the client. -/
theorem toolcall_status_regression_counterexample :
    mapGet ((handleNotification (exSession "medium")
          (DroidNotification.toolResult "t1" "out")).1).toolCallStatus "t1"
        = some TCStatus.completed ∧
    mapGet ((handleNotification
          ((handleNotification (exSession "medium") (DroidNotification.toolResult "t1" "out")).1)
          (DroidNotification.message "assistant" none "m1"
            (some { id := "t1", name := "bash" }))).1).toolCallStatus "t1"
        = some TCStatus.inProgress ∧
    Update.toolCall "t1" ("Running " ++ "bash") TCStatus.inProgress ∈
      (handleNotification
          ((handleNotification (exSession "medium") (DroidNotification.toolResult "t1" "out")).1)
          (DroidNotification.message "assistant" none "m1"
            (some { id := "t1", name := "bash" }))).2.1 := by
  decide

/-- C4 witness: a session that saw the tool call (it is active) and has it
completed; a later inline mention and a repeated tool_result leave it
completed and regression-free. -/
theorem toolcall_completed_never_regresses_when_active_witness :
    setMem ({ exSession "medium" with
        activeToolCallIds := ["t1"],
        toolCallStatus := [("t1", TCStatus.completed)],
        toolNames := [("t1", "bash")] } : Session).activeToolCallIds "t1" = true ∧
    mapGet ({ exSession "medium" with
        activeToolCallIds := ["t1"],
        toolCallStatus := [("t1", TCStatus.completed)],
        toolNames := [("t1", "bash")] } : Session).toolCallStatus "t1"
      = some TCStatus.completed ∧
    (setMem (processNotifications
        { exSession "medium" with
            activeToolCallIds := ["t1"],
            toolCallStatus := [("t1", TCStatus.completed)],
            toolNames := [("t1", "bash")] }
        [DroidNotification.message "assistant" (some "done") "m2"
            (some { id := "t1", name := "bash" }),
          DroidNotification.toolResult "t1" "out2"]).1.activeToolCallIds "t1" = true ∧
      mapGet (processNotifications
        { exSession "medium" with
            activeToolCallIds := ["t1"],
            toolCallStatus := [("t1", TCStatus.completed)],
            toolNames := [("t1", "bash")] }
        [DroidNotification.message "assistant" (some "done") "m2"
            (some { id := "t1", name := "bash" }),
          DroidNotification.toolResult "t1" "out2"]).1.toolCallStatus "t1"
        = some TCStatus.completed ∧
      ((processNotifications
        { exSession "medium" with
            activeToolCallIds := ["t1"],
            toolCallStatus := [("t1", TCStatus.completed)],
            toolNames := [("t1", "bash")] }
        [DroidNotification.message "assistant" (some "done") "m2"
            (some { id := "t1", name := "bash" }),
          DroidNotification.toolResult "t1" "out2"]).2.all
            (fun u => !(regressUpdateFor "t1" u))) = true) :=
  ⟨by decide, by decide,
    toolcall_completed_never_regresses_when_active
      { exSession "medium" with
          activeToolCallIds := ["t1"],
          toolCallStatus := [("t1", TCStatus.completed)],
          toolNames := [("t1", "bash")] }
      "t1"
      [DroidNotification.message "assistant" (some "done") "m2"
          (some { id := "t1", name := "bash" }),
        DroidNotification.toolResult "t1" "out2"]
      (by decide) (by decide)⟩
